import Mathlib

/-!
# Celestial Christmas Tree — verification of the gesture-interaction core

Shallow embedding of the gesture-driven interaction controller of the
Celestial-Christmas-Tree repository:

* `src/components/GestureUI.tsx` — landmark feature extraction, rule-based
  gesture classification, temporal stabilization (`processResults`) and the
  formation/mode transition function (`applyGestureEffect`);
* `src/components/Decorations.tsx` (the `InteractiveItems` section) — the
  history-aware random item selector (`pickRandomWithHistory`), the selection
  effect, and the camera-relative targeted-position computation of `Item`.

Numeric conventions: landmark coordinates and scene coordinates are embedded
as rationals (`ℚ`).  The source compares Euclidean distances obtained with
`Math.sqrt` against non-negative thresholds; since `Real.sqrt` is monotone and
both sides of every comparison in the source are non-negative, each comparison
`sqrt a < c` (resp. `sqrt a > sqrt b * m`) is equivalent to `a < c^2`
(resp. `a > b * m^2`), so the embedding carries squared distances and squared
thresholds throughout.  `Math.floor(n * 0.5)` on a natural `n` is exact in
binary floating point and equals `n / 2` (natural division).
-/

/-- Last `n` elements of a list (the contents of a rolling buffer). -/
def lastN (n : Nat) (l : List α) : List α := l.drop (l.length - n)

/-! ## Temporal Stabilizer (`GestureUI.tsx`, `processResults` lines 135–144)

```js
const GESTURE_CONFIDENCE_THRESHOLD = 5;
const history = gestureHistoryRef.current;
history.push(detectedGesture);
if (history.length > GESTURE_CONFIDENCE_THRESHOLD) history.shift();
const allMatch = history.length === GESTURE_CONFIDENCE_THRESHOLD &&
                 history.every(g => g === detectedGesture);
if (allMatch && detectedGesture !== currentStableGestureRef.current) {
  currentStableGestureRef.current = detectedGesture;
  applyGestureEffect(detectedGesture);
}
```
Gesture labels are the source's strings; the confirmed label starts at the
sentinel `"UNKNOWN"`. -/

def GESTURE_CONFIDENCE_THRESHOLD : Nat := 5

/-- Stabilizer state: rolling label buffer plus the confirmed label. -/
structure StabState where
  history : List String
  stable : String
deriving DecidableEq, Repr

/-- Initial stabilizer state (`gestureHistoryRef = []`,
`currentStableGestureRef = "UNKNOWN"`). -/
def initStab : StabState := ⟨[], "UNKNOWN"⟩

/-- `history.push(l); if (history.length > n) history.shift();`
(`shift` removes the single oldest entry). -/
def pushBuf (n : Nat) (h : List String) (l : String) : List String :=
  let h1 := h ++ [l]
  if n < h1.length then h1.drop 1 else h1

/-- One stabilizer step: push the raw label, then emit a change event
(`Bool` component) exactly when the buffer holds `n` unanimous copies of the
pushed label and the label differs from the confirmed one; on an event the
confirmed label is updated. -/
def stabStep (n : Nat) (st : StabState) (l : String) : StabState × Bool :=
  let h2 := pushBuf n st.history l
  let allMatch := h2.length == n && h2.all (fun g => g == l)
  if allMatch && l != st.stable then (⟨h2, l⟩, true) else (⟨h2, st.stable⟩, false)

/-- Feed a sequence of raw labels; returns the final state and the list of
per-frame event flags, in order. -/
def stabRun (n : Nat) (st : StabState) : List String → StabState × List Bool
  | [] => (st, [])
  | l :: ls =>
    let r1 := stabStep n st l
    let r2 := stabRun n r1.1 ls
    (r2.1, r1.2 :: r2.2)

/-! ## Gesture Classifier (`GestureUI.tsx`, `processResults` lines 104–132) -/

/-- Per-frame Feature Set, as derived by `processResults`. -/
structure Features where
  thumbExtended : Bool
  indexExtended : Bool
  middleExtended : Bool
  ringExtended : Bool
  pinkyExtended : Bool
  isPinching : Bool
deriving DecidableEq, Repr

/-- `[thumb, index, middle, ring, pinky].filter(Boolean).length` -/
def extendedCount (f : Features) : Nat :=
  ([f.thumbExtended, f.indexExtended, f.middleExtended, f.ringExtended,
    f.pinkyExtended].filter id).length

/-- The classification rule chain, first match wins:
```js
if (isPinching) detectedGesture = "PINCH";
else if (indexExtended && !middleExtended && !ringExtended && !pinkyExtended) detectedGesture = "POINT";
else if (extendedCount <= 1) detectedGesture = "FIST";
else if (extendedCount >= 4) detectedGesture = "OPEN";
else detectedGesture = "NEUTRAL";
``` -/
def classifyFeatures (f : Features) : String :=
  if f.isPinching then "PINCH"
  else if f.indexExtended && !f.middleExtended && !f.ringExtended && !f.pinkyExtended then "POINT"
  else if extendedCount f ≤ 1 then "FIST"
  else if 4 ≤ extendedCount f then "OPEN"
  else "NEUTRAL"

/-- `detectedGesture` for a frame: `"NONE"` when no hand is present
(`results.landmarks` empty), otherwise the classified label. -/
def detectGesture : Option Features → String
  | none => "NONE"
  | some f => classifyFeatures f

/-! ## Landmark Feature Extractor (`GestureUI.tsx` lines 106–126)

A landmark set is an ordered list of 3-D points.  The source indexes
`landmarks[i]` without any point-count guard; in JavaScript an out-of-range
index yields `undefined` and the subsequent `p1.x` access throws, so the
extraction is embedded as an `Option` computation where a missing index
propagates `none` (the thrown exception / crashed frame). -/

structure Point where
  x : ℚ
  y : ℚ
  z : ℚ
deriving DecidableEq, Repr

/-- Squared thumb-extension threshold: `0.2^2`. -/
def THUMB_EXTENDED_DISTANCE_THRESHOLD_SQ : ℚ := 1/25

/-- Squared finger-extension multiplier: `1.2^2`. -/
def FINGER_EXTENSION_MULTIPLIER_SQ : ℚ := 36/25

/-- Squared pinch threshold: `0.08^2`. -/
def PINCH_DISTANCE_THRESHOLD_SQ : ℚ := 4/625

/-- Squared version of the source's
`dist = (i1, i2) => Math.sqrt((p1.x-p2.x)^2 + (p1.y-p2.y)^2)` —
note the source uses only the x and y coordinates.  `none` models the
TypeError thrown when an index is out of range. -/
def distSq (l : List Point) (i1 i2 : Nat) : Option ℚ := do
  let p1 ← l.get? i1
  let p2 ← l.get? i2
  pure ((p1.x - p2.x) ^ 2 + (p1.y - p2.y) ^ 2)

/-- Feature extraction from one landmark set, following the source:
`thumbExtended = dist(4,17) > 0.2`,
`isExtended(tip, mcp) = dist(tip,0) > dist(mcp,0) * 1.2` for index (8,5),
middle (12,9), ring (16,13), pinky (20,17),
`pinchDistance = dist(4,8)`, `isPinching = pinchDistance < 0.08`;
every comparison is carried on squares (see the header comment). -/
def featuresOfLandmarks (l : List Point) : Option Features := do
  let dThumb ← distSq l 4 17
  let dIdxTip ← distSq l 8 0
  let dIdxMcp ← distSq l 5 0
  let dMidTip ← distSq l 12 0
  let dMidMcp ← distSq l 9 0
  let dRingTip ← distSq l 16 0
  let dRingMcp ← distSq l 13 0
  let dPinkTip ← distSq l 20 0
  let dPinkMcp ← distSq l 17 0
  let dPinch ← distSq l 4 8
  pure
    { thumbExtended := decide (THUMB_EXTENDED_DISTANCE_THRESHOLD_SQ < dThumb)
      indexExtended := decide (dIdxMcp * FINGER_EXTENSION_MULTIPLIER_SQ < dIdxTip)
      middleExtended := decide (dMidMcp * FINGER_EXTENSION_MULTIPLIER_SQ < dMidTip)
      ringExtended := decide (dRingMcp * FINGER_EXTENSION_MULTIPLIER_SQ < dRingTip)
      pinkyExtended := decide (dPinkMcp * FINGER_EXTENSION_MULTIPLIER_SQ < dPinkTip)
      isPinching := decide (dPinch < PINCH_DISTANCE_THRESHOLD_SQ) }

/-- One `processResults` frame up to the detected label.  The input is the
frame's landmark set, `none` when no hand is detected.  The result is `none`
exactly when the source would throw (malformed landmark list), otherwise
`some` of the detected gesture label. -/
def processFrame : Option (List Point) → Option String
  | none => some "NONE"
  | some l => (featuresOfLandmarks l).map classifyFeatures

/-! ## Formation / mode state machine (`GestureUI.tsx`, `applyGestureEffect`
lines 148–162, and `types.ts`) -/

inductive AppState where
  | SCATTERED
  | TREE_SHAPE
deriving DecidableEq, Repr

inductive InteractionMode where
  | IDLE
  | PULLING_FRAME
  | PULLING_GIFT
deriving DecidableEq, Repr

/-- ```js
switch (gesture) {
  case "PINCH": setInteractionMode(PULLING_FRAME); break;
  case "POINT": setInteractionMode(PULLING_GIFT); break;
  case "FIST": setInteractionMode(IDLE); setAppState(TREE_SHAPE); break;
  case "OPEN": setInteractionMode(IDLE); setAppState(SCATTERED); break;
  default: setInteractionMode(IDLE); break;
}
``` -/
def applyGestureEffect (gesture : String) (s : AppState) (m : InteractionMode) :
    AppState × InteractionMode :=
  if gesture = "PINCH" then (s, .PULLING_FRAME)
  else if gesture = "POINT" then (s, .PULLING_GIFT)
  else if gesture = "FIST" then (.TREE_SHAPE, .IDLE)
  else if gesture = "OPEN" then (.SCATTERED, .IDLE)
  else (s, .IDLE)

/-! ## Item Selector (`Decorations.tsx`, `InteractiveItems` section,
lines 909–935)

```js
const GIFTS_COUNT = 30;
const FRAMES_COUNT = 15;
const historyRef = useRef<string[]>([]);       // one queue, shared by both categories
const pickRandomWithHistory = (candidates) => {
  if (candidates.length === 0) return null;
  const available = candidates.filter(c => !historyRef.current.includes(c.id));
  const pool = available.length === 0 ? candidates : available;
  const selected = pool[Math.floor(Math.random() * pool.length)];
  historyRef.current.push(selected.id);
  const maxHistory = Math.max(1, Math.floor(candidates.length * 0.5));
  if (historyRef.current.length > maxHistory) historyRef.current.shift();
  return selected.id;
};
```
`Math.floor(Math.random() * pool.length)` is a uniformly random index below
`pool.length`; randomness is embedded as an oracle `r : Nat`, the index being
`r % pool.length`. -/

def GIFTS_COUNT : Nat := 30

def FRAMES_COUNT : Nat := 15

/-- `Math.max(1, Math.floor(poolSize * 0.5))`. -/
def maxHistory (poolSize : Nat) : Nat := max 1 (poolSize / 2)

/-- `historyRef.current.push(id); if (length > maxHistory) shift();` -/
def updateHistory (hist : List String) (id : String) (poolSize : Nat) : List String :=
  let h1 := hist ++ [id]
  if maxHistory poolSize < h1.length then h1.drop 1 else h1

/-- `pickRandomWithHistory` over identifiers: returns the selected id
(`none` when the candidate list is empty, in which case the history is left
untouched) and the updated history queue. -/
def pickRandomWithHistory (candidates : List String) (hist : List String)
    (r : Nat) : Option String × List String :=
  if candidates.length = 0 then (none, hist)
  else
    let available := candidates.filter (fun c => !(hist.contains c))
    let pool := if available.length = 0 then candidates else available
    let selected := pool.getD (r % pool.length) ""
    (some selected, updateHistory hist selected candidates.length)

/-! ## Selection effect (`Decorations.tsx`, `InteractiveItems` lines 937–952)

```js
if (interactionMode === PULLING_GIFT) {
  const gifts = dynamicItems.filter(i => i.type === 'gift');
  if (!activeItemId || dynamicItems.find(i => i.id === activeItemId)?.type !== 'gift') {
    const newId = pickRandomWithHistory(gifts);
    if (newId) setActiveItemId(newId);
  }
} else if (interactionMode === PULLING_FRAME) {
  ... symmetric with 'frame' ...
} else {
  setActiveItemId(null);
}
``` -/

inductive ItemType where
  | gift
  | frame
deriving DecidableEq, Repr

structure ItemD where
  id : String
  type : ItemType
deriving DecidableEq, Repr

/-- `dynamicItems.find(i => i.id === activeItemId)?.type === ty` for the
current `activeItemId` (false when no item is active or the id is absent). -/
def activeHasType (items : List ItemD) (active : Option String) (ty : ItemType) : Bool :=
  match active with
  | none => false
  | some a =>
    match items.find? (fun i => i.id == a) with
    | some it => it.type == ty
    | none => false

/-- One run of the selection effect: given the interaction mode, the item
list, the currently active item id and the shared history queue, produce the
new active id and history.  When `pickRandomWithHistory` returns `null`
(empty candidate list) the active id is left unchanged, mirroring
`if (newId) setActiveItemId(newId)`. -/
def selectionEffect (mode : InteractionMode) (items : List ItemD)
    (active : Option String) (hist : List String) (r : Nat) :
    Option String × List String :=
  match mode with
  | .PULLING_GIFT =>
    if activeHasType items active .gift then (active, hist)
    else
      let gifts := (items.filter (fun i => i.type == ItemType.gift)).map (·.id)
      let p := pickRandomWithHistory gifts hist r
      (if p.1.isSome then p.1 else active, p.2)
  | .PULLING_FRAME =>
    if activeHasType items active .frame then (active, hist)
    else
      let frames := (items.filter (fun i => i.type == ItemType.frame)).map (·.id)
      let p := pickRandomWithHistory frames hist r
      (if p.1.isSome then p.1 else active, p.2)
  | .IDLE => (none, hist)

/-! ## Full controller state: stabilizer plus formation/mode machine -/

/-- The mutable state `processResults` and `applyGestureEffect` touch:
the stabilizer's rolling buffer and confirmed label, the formation state
(`appState`) and the interaction mode. -/
structure CtrlState where
  history : List String
  stable : String
  appState : AppState
  mode : InteractionMode
deriving DecidableEq, Repr

/-- One full `processResults` step on the controller state: the stabilizer is
advanced and, exactly when a change event fires, `applyGestureEffect` is run
on the formation/mode pair. -/
def processStep (n : Nat) (st : CtrlState) (raw : String) : CtrlState × Bool :=
  let sb := stabStep n ⟨st.history, st.stable⟩ raw
  if sb.2 then
    let e := applyGestureEffect raw st.appState st.mode
    (⟨sb.1.history, sb.1.stable, e.1, e.2⟩, true)
  else
    (⟨sb.1.history, sb.1.stable, st.appState, st.mode⟩, false)

/-- Feed a sequence of raw labels through the full controller. -/
def processRun (n : Nat) (st : CtrlState) : List String → CtrlState × List Bool
  | [] => (st, [])
  | l :: ls =>
    let r1 := processStep n st l
    let r2 := processRun n r1.1 ls
    (r2.1, r1.2 :: r2.2)

/-- A manual-control button (`GestureUI.tsx` lines 392–398) calls
`applyGestureEffect` directly: only the formation state and mode change;
the stabilizer's buffer and confirmed label are not mentioned. -/
def manualOverride (gesture : String) (st : CtrlState) : CtrlState :=
  let e := applyGestureEffect gesture st.appState st.mode
  ⟨st.history, st.stable, e.1, e.2⟩

/-! ## Targeted-position computation (`Decorations.tsx`, `Item` `useFrame`,
lines 580–589)

```js
const TARGETED_DISTANCE = 2.5;
const forward = new THREE.Vector3(0, 0, -1).applyQuaternion(camera.quaternion);
const up = new THREE.Vector3(0, -1, 0).applyQuaternion(camera.quaternion);
desiredPos = camera.position.clone()
  .add(forward.multiplyScalar(TARGETED_DISTANCE))
  .add(up.multiplyScalar(data.type === 'gift' ? 0.3 : 0.05));
```
Note the vector named `up` is initialized to `(0, -1, 0)` — the camera-local
*down* direction.  `applyQuaternion` is THREE.js's
`v' = v + 2 q.w (q.xyz × v) + 2 q.xyz × (q.xyz × v)`, written below in its
source form with `t = 2 (q.xyz × v)`. -/

structure Vec3 where
  x : ℚ
  y : ℚ
  z : ℚ
deriving DecidableEq, Repr

def vadd (a b : Vec3) : Vec3 := ⟨a.x + b.x, a.y + b.y, a.z + b.z⟩

def vscale (s : ℚ) (a : Vec3) : Vec3 := ⟨s * a.x, s * a.y, s * a.z⟩

structure Quat where
  w : ℚ
  x : ℚ
  y : ℚ
  z : ℚ
deriving DecidableEq, Repr

/-- THREE.js `Vector3.applyQuaternion`. -/
def applyQuaternion (v : Vec3) (q : Quat) : Vec3 :=
  let tx := 2 * (q.y * v.z - q.z * v.y)
  let ty := 2 * (q.z * v.x - q.x * v.z)
  let tz := 2 * (q.x * v.y - q.y * v.x)
  ⟨v.x + q.w * tx + q.y * tz - q.z * ty,
   v.y + q.w * ty + q.z * tx - q.x * tz,
   v.z + q.w * tz + q.x * ty - q.y * tx⟩

def TARGETED_DISTANCE : ℚ := 5/2

/-- The `desiredPos` computed by `Item`'s `useFrame` for the targeted item,
as a function of the camera pose and the item category.  The per-category
scalar is `0.3` for gifts and `0.05` for frames. -/
def targetedPosition (camPos : Vec3) (camQuat : Quat) (ty : ItemType) : Vec3 :=
  let forward := applyQuaternion ⟨0, 0, -1⟩ camQuat
  let up := applyQuaternion ⟨0, -1, 0⟩ camQuat
  vadd (vadd camPos (vscale TARGETED_DISTANCE forward))
    (vscale (if ty = ItemType.gift then 3/10 else 5/100) up)

/-- Modelled from the spec (for comparison only): the spec's target position,
`camera position + forward × focus distance + camera *up* vector ×
per-category vertical offset`, where the camera up vector is the camera-local
`(0, 1, 0)` direction rotated into world space. -/
def specTargetedPosition (camPos : Vec3) (camQuat : Quat) (ty : ItemType) : Vec3 :=
  let forward := applyQuaternion ⟨0, 0, -1⟩ camQuat
  let up := applyQuaternion ⟨0, 1, 0⟩ camQuat
  vadd (vadd camPos (vscale TARGETED_DISTANCE forward))
    (vscale (if ty = ItemType.gift then 3/10 else 5/100) up)

/-- Modelled from the spec (for comparison only): the 3-D Euclidean distance,
squared, between two landmark points — the spec's
"`pinchDistance` (Euclidean distance between thumb tip and index tip)" for
3-D points. -/
def euclidDistSq3D (p q : Point) : ℚ :=
  (p.x - q.x) ^ 2 + (p.y - q.y) ^ 2 + (p.z - q.z) ^ 2

/-! ## Lemmas about the rolling buffer and stabilizer runs -/

theorem lastN_of_le {l : List α} {n : Nat} (h : l.length ≤ n) : lastN n l = l := by
  simp [lastN, Nat.sub_eq_zero_of_le h]

theorem lastN_length (n : Nat) (l : List α) : (lastN n l).length = min n l.length := by
  simp [lastN]; omega

/-- Pushing into a rolling buffer that holds the last `n` elements of `xs`
yields the last `n` elements of `xs ++ [l]`. -/
theorem pushBuf_lastN (n : Nat) (xs : List String) (l : String) :
    pushBuf n (lastN n xs) l = lastN n (xs ++ [l]) := by
  unfold pushBuf lastN
  simp only [List.length_append, List.length_drop, List.length_cons,
    List.length_nil]
  by_cases hn : n ≤ xs.length
  · have hcond : n < xs.length - (xs.length - n) + (0 + 1) := by omega
    rw [if_pos hcond, List.drop_append_eq_append_drop, List.drop_drop,
      List.drop_append_eq_append_drop]
    simp only [List.length_drop]
    congr 2 <;> omega
  · have hcond : ¬ n < xs.length - (xs.length - n) + (0 + 1) := by omega
    rw [if_neg hcond]
    have h1 : xs.length - n = 0 := by omega
    have h2 : xs.length + (0 + 1) - n = 0 := by omega
    rw [h1, h2]
    simp

/-- While fewer than `n` labels `L` have accumulated after a buffer prefix
`h` each of whose suffixes holds a non-`L` entry, no change event fires and
the confirmed label is untouched. -/
theorem stabRun_nofire (n : Nat) (L s : String) (h : List String)
    (Hyp : ∀ d, d < h.length → ∃ g ∈ h.drop d, g ≠ L) :
    ∀ (k i : Nat), i + k < n →
      stabRun n ⟨lastN n (h ++ List.replicate i L), s⟩ (List.replicate k L) =
        (⟨lastN n (h ++ List.replicate (i + k) L), s⟩, List.replicate k false) := by
  intro k
  induction k with
  | zero => intro i _; simp [stabRun]
  | succ k ih =>
    intro i hi
    have hbuf : pushBuf n (lastN n (h ++ List.replicate i L)) L =
        lastN n (h ++ List.replicate (i + 1) L) := by
      rw [pushBuf_lastN, List.append_assoc]
      congr 2
      exact (List.replicate_succ' i L).symm
    have hfalse :
        (((lastN n (h ++ List.replicate (i + 1) L)).length == n &&
          (lastN n (h ++ List.replicate (i + 1) L)).all (fun g => g == L)) &&
          (L != s)) = false := by
      by_cases hlen : h.length + (i + 1) < n
      · have : (lastN n (h ++ List.replicate (i + 1) L)).length ≠ n := by
          rw [lastN_length]; simp; omega
        simp only [Bool.and_eq_false_iff]
        left; left
        simpa using this
      · have hd : h.length + (i + 1) - n < h.length := by omega
        obtain ⟨g, hg, hgL⟩ := Hyp _ hd
        have hmem : g ∈ lastN n (h ++ List.replicate (i + 1) L) := by
          unfold lastN
          rw [List.drop_append_eq_append_drop]
          apply List.mem_append_left
          have : (h ++ List.replicate (i + 1) L).length - n =
              h.length + (i + 1) - n := by simp
          rw [this]
          exact hg
        simp only [Bool.and_eq_false_iff]
        left; right
        rw [List.all_eq_false]
        exact ⟨g, hmem, by simpa using hgL⟩
    have hstep : stabStep n ⟨lastN n (h ++ List.replicate i L), s⟩ L =
        (⟨lastN n (h ++ List.replicate (i + 1) L), s⟩, false) := by
      unfold stabStep
      simp only [hbuf, hfalse]
      simp
    rw [List.replicate_succ, stabRun]
    simp only [hstep]
    have := ih (i + 1) (by omega)
    simp only [this]
    have harith : i + 1 + k = i + (k + 1) := by omega
    rw [harith]
    simp [List.replicate_succ]

/-- The `n`-th consecutive `L` on top of any prior buffer contents fires the
change event and confirms `L`, provided `L` was not confirmed before. -/
theorem stabStep_fire (n : Nat) (hn : 1 ≤ n) (L s : String) (hs : L ≠ s)
    (h : List String) :
    stabStep n ⟨lastN n (h ++ List.replicate (n - 1) L), s⟩ L =
      (⟨List.replicate n L, L⟩, true) := by
  have hbuf : pushBuf n (lastN n (h ++ List.replicate (n - 1) L)) L =
      List.replicate n L := by
    rw [pushBuf_lastN, List.append_assoc]
    have h1 : List.replicate (n - 1) L ++ [L] = List.replicate n L := by
      have := (List.replicate_succ' (n - 1) L).symm
      rw [this]
      congr 1
      omega
    rw [h1]
    unfold lastN
    have h2 : (h ++ List.replicate n L).length - n = h.length := by simp
    rw [h2, List.drop_left]
  unfold stabStep
  simp only [hbuf]
  have hall : (List.replicate n L).all (fun g => g == L) = true := by
    rw [List.all_eq_true]
    intro g hg
    simp [List.eq_of_mem_replicate hg]
  simp [hall, hs]

/-- Pushing the already-confirmed label never fires an event and never moves
the confirmed label, whatever the buffer contents. -/
theorem stabRun_confirmed (n : Nat) (L : String) :
    ∀ (k : Nat) (h : List String), ∃ h',
      stabRun n ⟨h, L⟩ (List.replicate k L) = (⟨h', L⟩, List.replicate k false) := by
  intro k
  induction k with
  | zero => intro h; exact ⟨h, by simp [stabRun]⟩
  | succ k ih =>
    intro h
    obtain ⟨h', hh'⟩ := ih (pushBuf n h L)
    refine ⟨h', ?_⟩
    rw [List.replicate_succ, stabRun]
    have hstep : stabStep n ⟨h, L⟩ L = (⟨pushBuf n h L, L⟩, false) := by
      unfold stabStep
      simp
    simp only [hstep, hh']
    simp [List.replicate_succ]

/-- The event flag of one stabilizer step equals the source's
`allMatch && detectedGesture !== currentStableGesture` condition. -/
theorem stabStep_snd_eq (n : Nat) (st : StabState) (l : String) :
    (stabStep n st l).2 =
      (((pushBuf n st.history l).length == n &&
        (pushBuf n st.history l).all (fun g => g == l)) && (l != st.stable)) := by
  simp only [stabStep]
  split
  case isTrue hc => rw [hc]
  case isFalse hc =>
    rw [Bool.not_eq_true] at hc
    rw [hc]

/-- `stabRun` over a concatenation splits into two runs. -/
theorem stabRun_append (n : Nat) (st : StabState) (xs ys : List String) :
    stabRun n st (xs ++ ys) =
      ((stabRun n (stabRun n st xs).1 ys).1,
        (stabRun n st xs).2 ++ (stabRun n (stabRun n st xs).1 ys).2) := by
  induction xs generalizing st with
  | nil => simp [stabRun]
  | cons x xs ih =>
    simp only [List.cons_append, stabRun, List.append_eq]
    rw [ih]

/-! ## Claim theorems -/

/-- C1: after pushing a raw label into the Temporal Stabilizer, a
gesture-change event is emitted iff the rolling buffer holds exactly `n`
entries, all equal to the pushed label, and that label differs from the
currently-confirmed label; a run of `n` identical labels `L` starting from a
buffer free of `L` and a different confirmed label fires exactly one event,
on the `n`-th push and not before, confirming `L`; and after a single
non-matching label `M`, fewer than `n` subsequent `L`-pushes fire no event at
all. -/
theorem c1_temporal_stabilizer (n : Nat) (hn : 1 ≤ n) (st : StabState)
    (L M : String) :
    (∀ (st' : StabState) (l : String),
      ((stabStep n st' l).2 = true ↔
        ((pushBuf n st'.history l).length = n ∧
          (∀ g ∈ pushBuf n st'.history l, g = l) ∧ l ≠ st'.stable))) ∧
    (st.history.length ≤ n → st.stable ≠ L → (∀ g ∈ st.history, g ≠ L) →
      stabRun n st (List.replicate n L) =
        (⟨List.replicate n L, L⟩, List.replicate (n - 1) false ++ [true])) ∧
    (st.history.length ≤ n → M ≠ L → ∀ k, k < n →
      (stabRun n (stabStep n st M).1 (List.replicate k L)).2 =
        List.replicate k false) := by
  refine ⟨?_, ?_, ?_⟩
  · intro st' l
    rw [stabStep_snd_eq]
    simp [List.all_eq_true, and_assoc]
  · intro hlen hsL hall
    have hsplit : List.replicate n L = List.replicate (n - 1) L ++ [L] := by
      rw [← List.replicate_succ' (n - 1) L]
      congr 1
      omega
    conv_lhs => rw [hsplit]
    rw [stabRun_append]
    have Hyp : ∀ d, d < st.history.length → ∃ g ∈ st.history.drop d, g ≠ L := by
      intro d hd
      have hne : st.history.drop d ≠ [] := by
        apply List.ne_nil_of_length_pos
        rw [List.length_drop]
        omega
      obtain ⟨g, hg⟩ := List.exists_mem_of_ne_nil _ hne
      exact ⟨g, hg, hall g (List.mem_of_mem_drop hg)⟩
    have h1 := stabRun_nofire n L st.stable st.history Hyp (n - 1) 0 (by omega)
    simp only [List.replicate_zero, List.append_nil, Nat.zero_add] at h1
    have hst : (⟨lastN n st.history, st.stable⟩ : StabState) = st := by
      rw [lastN_of_le hlen]
    rw [hst] at h1
    rw [h1]
    have h2 := stabStep_fire n hn L st.stable (fun he => hsL he.symm) st.history
    simp [stabRun, h2]
  · intro hlen hML k hk
    have hbuf : pushBuf n st.history M = lastN n (st.history ++ [M]) := by
      conv_lhs => rw [← lastN_of_le hlen]
      exact pushBuf_lastN n st.history M
    have hstate : (stabStep n st M).1 =
        ⟨lastN n (st.history ++ [M]), (stabStep n st M).1.stable⟩ := by
      have hh : (stabStep n st M).1.history = pushBuf n st.history M := by
        simp only [stabStep]
        split <;> rfl
      rw [← hbuf, ← hh]
    have Hyp : ∀ d, d < (st.history ++ [M]).length →
        ∃ g ∈ (st.history ++ [M]).drop d, g ≠ L := by
      intro d hd
      rw [List.drop_append_eq_append_drop]
      have hdle : d - st.history.length = 0 := by
        simp only [List.length_append, List.length_cons, List.length_nil] at hd
        omega
      rw [hdle]
      exact ⟨M, by simp, hML⟩
    have h3 := stabRun_nofire n L ((stabStep n st M).1.stable)
      (st.history ++ [M]) Hyp k 0 (by omega)
    simp only [List.replicate_zero, List.append_nil, Nat.zero_add] at h3
    rw [hstate, h3]

/-- Witness for C1 at the source's threshold `n = 5`, starting from the
initial state with confirmed sentinel `"UNKNOWN"`: five `"FIST"` frames fire
exactly one event, on the fifth frame; after an interrupting `"OPEN"`, three
further `"FIST"` frames fire nothing. -/
theorem c1_temporal_stabilizer_witness :
    stabRun 5 initStab (List.replicate 5 "FIST") =
      (⟨List.replicate 5 "FIST", "FIST"⟩, List.replicate 4 false ++ [true]) ∧
    (stabRun 5 (stabStep 5 initStab "OPEN").1 (List.replicate 3 "FIST")).2 =
      List.replicate 3 false := by
  constructor
  · exact (c1_temporal_stabilizer 5 (by norm_num) initStab "FIST" "OPEN").2.1
      (by decide) (by decide) (by decide)
  · exact (c1_temporal_stabilizer 5 (by norm_num) initStab "FIST" "OPEN").2.2
      (by decide) (by decide) 3 (by norm_num)

/-- C2 counterexample: with the camera at the origin facing `-Z` (identity
quaternion), the targeted position computed by the code for a gift is
`(0, -0.3, -2.5)` — the per-category offset is applied along the rotated
`(0, -1, 0)` direction, not the camera up vector — while the spec's formula
yields `(0, 0.3, -2.5)`; the two y-components lie on opposite sides of 0. -/
theorem c2_counterexample :
    targetedPosition ⟨0, 0, 0⟩ ⟨1, 0, 0, 0⟩ ItemType.gift = ⟨0, -(3/10), -(5/2)⟩ ∧
    specTargetedPosition ⟨1*0, 0, 0⟩ ⟨1, 0, 0, 0⟩ ItemType.gift = ⟨0, 3/10, -(5/2)⟩ ∧
    (targetedPosition ⟨0, 0, 0⟩ ⟨1, 0, 0, 0⟩ ItemType.gift).y < 0 ∧
    0 < (specTargetedPosition ⟨1*0, 0, 0⟩ ⟨1, 0, 0, 0⟩ ItemType.gift).y := by
  refine ⟨?_, ?_, ?_, ?_⟩ <;>
    · simp [targetedPosition, specTargetedPosition, applyQuaternion, vadd, vscale,
        TARGETED_DISTANCE]
      try norm_num

/-- C2 amended: each frame the desired position of the targeted item is
camera position + (camera forward vector × 2.5) + (the camera-local
`(0, -1, 0)` direction rotated into world space × per-category offset,
0.3 for gifts and 0.05 for frames); with the camera at the origin facing
`-Z` a targeted gift sits at `(0, -0.3, -2.5)` and a frame at
`(0, -0.05, -2.5)`, and with the camera yawed 180° a gift sits at
`(0, -0.3, 2.5)`. -/
theorem c2_amended :
    (∀ (camPos : Vec3) (q : Quat) (ty : ItemType),
      targetedPosition camPos q ty =
        vadd (vadd camPos (vscale TARGETED_DISTANCE (applyQuaternion ⟨0, 0, -1⟩ q)))
          (vscale (if ty = ItemType.gift then 3/10 else 5/100)
            (applyQuaternion ⟨0, -1, 0⟩ q))) ∧
    targetedPosition ⟨0, 0, 0⟩ ⟨1, 0, 0, 0⟩ ItemType.gift = ⟨0, -(3/10), -(5/2)⟩ ∧
    targetedPosition ⟨0, 0, 0⟩ ⟨1, 0, 0, 0⟩ ItemType.frame = ⟨0, -(5/100), -(5/2)⟩ ∧
    targetedPosition ⟨0, 0, 0⟩ ⟨0, 0, 1, 0⟩ ItemType.gift = ⟨0, -(3/10), 5/2⟩ := by
  refine ⟨fun camPos q ty => rfl, ?_, ?_, ?_⟩ <;>
    · simp [targetedPosition, applyQuaternion, vadd, vscale, TARGETED_DISTANCE]
      try norm_num

/-- C3: the classifier evaluates its rules in strict priority order with
first match winning — pinch, then point, then fist (`extendedCount ≤ 1`),
then open (`extendedCount ≥ 4`), else neutral — an absent hand maps to
`"NONE"` bypassing the rules, and any feature set with `extendedCount ≤ 1`
and `isPinching` set classifies as `"PINCH"`, never `"FIST"`. -/
theorem c3_classifier_priority :
    (∀ f : Features, f.isPinching = true → classifyFeatures f = "PINCH") ∧
    (∀ f : Features, f.isPinching = false → f.indexExtended = true →
      f.middleExtended = false → f.ringExtended = false → f.pinkyExtended = false →
      classifyFeatures f = "POINT") ∧
    (∀ f : Features, f.isPinching = false →
      (f.indexExtended && !f.middleExtended && !f.ringExtended && !f.pinkyExtended) = false →
      extendedCount f ≤ 1 → classifyFeatures f = "FIST") ∧
    (∀ f : Features, f.isPinching = false →
      (f.indexExtended && !f.middleExtended && !f.ringExtended && !f.pinkyExtended) = false →
      1 < extendedCount f → 4 ≤ extendedCount f → classifyFeatures f = "OPEN") ∧
    (∀ f : Features, f.isPinching = false →
      (f.indexExtended && !f.middleExtended && !f.ringExtended && !f.pinkyExtended) = false →
      1 < extendedCount f → extendedCount f < 4 → classifyFeatures f = "NEUTRAL") ∧
    (detectGesture none = "NONE") ∧
    (∀ f : Features, extendedCount f ≤ 1 → f.isPinching = true →
      classifyFeatures f = "PINCH") := by
  refine ⟨?_, ?_, ?_, ?_, ?_, rfl, ?_⟩ <;>
    · intro f
      rcases f with ⟨t, i, m, r, p, pin⟩
      cases t <;> cases i <;> cases m <;> cases r <;> cases p <;> cases pin <;>
        simp_all [classifyFeatures, extendedCount]

/-- Witness for C3 at concrete feature sets: a pinching closed hand is
`"PINCH"` (not `"FIST"`), a lone extended index is `"POINT"`, a thumb-only
hand is `"FIST"`, four extended fingers are `"OPEN"`, two extended fingers
are `"NEUTRAL"`. -/
theorem c3_classifier_priority_witness :
    classifyFeatures ⟨false, false, false, false, false, true⟩ = "PINCH" ∧
    classifyFeatures ⟨false, true, false, false, false, false⟩ = "POINT" ∧
    classifyFeatures ⟨true, false, false, false, false, false⟩ = "FIST" ∧
    classifyFeatures ⟨true, true, true, true, false, false⟩ = "OPEN" ∧
    classifyFeatures ⟨true, false, true, false, false, false⟩ = "NEUTRAL" ∧
    classifyFeatures ⟨false, false, false, false, false, true⟩ = "PINCH" := by
  refine ⟨?_, ?_, ?_, ?_, ?_, ?_⟩
  · exact c3_classifier_priority.1 ⟨false, false, false, false, false, true⟩ rfl
  · exact c3_classifier_priority.2.1 ⟨false, true, false, false, false, false⟩
      rfl rfl rfl rfl rfl
  · exact c3_classifier_priority.2.2.1 ⟨true, false, false, false, false, false⟩
      rfl rfl (by decide)
  · exact c3_classifier_priority.2.2.2.1 ⟨true, true, true, true, false, false⟩
      rfl rfl (by decide) (by decide)
  · exact c3_classifier_priority.2.2.2.2.1 ⟨true, false, true, false, false, false⟩
      rfl rfl (by decide) (by decide)
  · exact c3_classifier_priority.2.2.2.2.2.2 ⟨false, false, false, false, false, true⟩
      (by decide) rfl

/-- C4: the formation/mode transition is total over the gesture-label
alphabet `{NONE, FIST, PINCH, POINT, OPEN, NEUTRAL}`: from every
(formation state, interaction mode) pair, `"FIST"` yields
`(TREE_SHAPE, IDLE)`, `"OPEN"` yields `(SCATTERED, IDLE)`, `"PINCH"` keeps
the formation state and sets `PULLING_FRAME`, `"POINT"` keeps the formation
state and sets `PULLING_GIFT`, and `"NEUTRAL"` and `"NONE"` keep the
formation state and set `IDLE`. -/
theorem c4_transition_total (s : AppState) (m : InteractionMode) :
    applyGestureEffect "FIST" s m = (AppState.TREE_SHAPE, InteractionMode.IDLE) ∧
    applyGestureEffect "OPEN" s m = (AppState.SCATTERED, InteractionMode.IDLE) ∧
    applyGestureEffect "PINCH" s m = (s, InteractionMode.PULLING_FRAME) ∧
    applyGestureEffect "POINT" s m = (s, InteractionMode.PULLING_GIFT) ∧
    applyGestureEffect "NEUTRAL" s m = (s, InteractionMode.IDLE) ∧
    applyGestureEffect "NONE" s m = (s, InteractionMode.IDLE) := by
  refine ⟨rfl, rfl, rfl, rfl, rfl, rfl⟩

/-! ## C5/C6 — selection history -/

/-- The identifier pool of the gift category, ids `gift-0` … `gift-29`
(30 items). -/
def giftIds : List String := (List.range GIFTS_COUNT).map (fun i => "gift-" ++ toString i)

/-- The identifier pool of the frame category, ids `frame-0` … `frame-14`
(15 items). -/
def frameIds : List String := (List.range FRAMES_COUNT).map (fun i => "frame-" ++ toString i)

/-- Eight selections from the gift pool followed by one selection from the
frame pool, all through the single shared history queue, with the random
index oracle `0`. -/
def c5Run : List String :=
  (List.replicate 8 giftIds ++ [frameIds]).foldl
    (fun h pool => (pickRandomWithHistory pool h 0).2) []

theorem updateHistory_length_le (hist : List String) (id : String) (p : Nat)
    (hh : hist.length ≤ maxHistory p) :
    (updateHistory hist id p).length ≤ maxHistory p := by
  simp only [updateHistory]
  split
  case isTrue h => simp at h ⊢; omega
  case isFalse h => simp at h ⊢; omega

theorem pickRandom_length_le (cands hist : List String) (r : Nat)
    (hh : hist.length ≤ maxHistory cands.length) :
    (pickRandomWithHistory cands hist r).2.length ≤ maxHistory cands.length := by
  unfold pickRandomWithHistory
  split
  · simpa using hh
  · simpa using updateHistory_length_le hist _ cands.length hh

theorem foldPick_length_le (cands : List String) (rs : List Nat) :
    ∀ hist, hist.length ≤ maxHistory cands.length →
      (rs.foldl (fun h r => (pickRandomWithHistory cands h r).2) hist).length ≤
        maxHistory cands.length := by
  induction rs with
  | nil => intro hist hh; simpa using hh
  | cons r rs ih =>
    intro hist hh
    simp only [List.foldl_cons]
    exact ih _ (pickRandom_length_le cands hist r hh)

/-- C5 counterexample: the history queue is one queue shared by both
categories.  After eight selections from the 30-item gift pool the queue
holds 8 identifiers; the following selection from the 15-item frame pool
pushes one identifier and evicts only one, so the queue still holds 8
entries right after a selection whose category bound is
`max(1, floor(15 × 0.5)) = 7`. -/
theorem c5_counterexample :
    giftIds.length = GIFTS_COUNT ∧
    frameIds.length = FRAMES_COUNT ∧
    maxHistory frameIds.length = 7 ∧
    c5Run.length = 8 ∧
    maxHistory frameIds.length < c5Run.length := by decide

/-- C5 amended: each selection pushes exactly one identifier and evicts at
most the single oldest entry, so one update never exceeds
`max(previous length, max(1, floor(poolSize × 0.5)))`; consequently, as long
as every selection draws from the same category's pool, the queue never
exceeds that category's bound — but the queue is shared, and a selection
from a smaller pool after selections from a larger one can leave it above
the smaller category's bound. -/
theorem c5_amended :
    (∀ (hist : List String) (id : String) (p : Nat),
      updateHistory hist id p = hist ++ [id] ∨
      updateHistory hist id p = (hist ++ [id]).drop 1) ∧
    (∀ (hist : List String) (id : String) (p : Nat),
      (updateHistory hist id p).length ≤ max hist.length (maxHistory p)) ∧
    (∀ (cands hist : List String) (r : Nat),
      hist.length ≤ maxHistory cands.length →
      (pickRandomWithHistory cands hist r).2.length ≤ maxHistory cands.length) ∧
    (∀ (cands : List String) (rs : List Nat),
      (rs.foldl (fun h r => (pickRandomWithHistory cands h r).2) []).length ≤
        maxHistory cands.length) := by
  refine ⟨?_, ?_, pickRandom_length_le, ?_⟩
  · intro hist id p
    simp only [updateHistory]
    split
    · right; rfl
    · left; rfl
  · intro hist id p
    simp only [updateHistory]
    split
    case isTrue h => simp at h ⊢; try omega
    case isFalse h => simp at h ⊢; try omega
  · intro cands rs
    exact foldPick_length_le cands rs [] (by simp [maxHistory])

/-- Witness for C5 (amended): a concrete selection from the gift pool with
an empty history respects the gift-category bound of 15. -/
theorem c5_amended_witness :
    (pickRandomWithHistory giftIds [] 0).2.length ≤ maxHistory giftIds.length :=
  c5_amended.2.2.1 giftIds [] 0 (by decide)

theorem getD_mem_of_pos {l : List String} (hl : 0 < l.length) (r : Nat) :
    l.getD (r % l.length) "" ∈ l := by
  have h : r % l.length < l.length := Nat.mod_lt _ hl
  rw [List.getD_eq_get?, List.get?_eq_get h]
  exact List.get_mem l _ h

/-- C6: for every non-empty candidate pool the Item Selector returns some
identifier drawn from the pool, and whenever the history-filtered candidate
set is non-empty the returned identifier comes from that filtered set — in
particular it is not in the history queue; when the filtered set is empty
the choice falls back to the full pool. -/
theorem c6_selector (cands hist : List String) (r : Nat) (hne : cands ≠ []) :
    ∃ id, (pickRandomWithHistory cands hist r).1 = some id ∧ id ∈ cands ∧
      (cands.filter (fun c => !(hist.contains c)) ≠ [] →
        id ∈ cands.filter (fun c => !(hist.contains c)) ∧ id ∉ hist) := by
  have hpos : 0 < cands.length := List.length_pos.mpr hne
  have hlen0 : ¬ cands.length = 0 := by omega
  simp only [pickRandomWithHistory, hlen0, if_false]
  by_cases hav : (cands.filter (fun c => !(hist.contains c))).length = 0
  · rw [if_pos hav]
    refine ⟨cands.getD (r % cands.length) "", rfl, getD_mem_of_pos hpos r, ?_⟩
    intro habs
    exact absurd (List.length_eq_zero.mp hav) habs
  · rw [if_neg hav]
    have hpos' : 0 < (cands.filter (fun c => !(hist.contains c))).length := by omega
    have hmem := getD_mem_of_pos hpos' r
    have hprop := List.mem_filter.mp hmem
    refine ⟨_, rfl, hprop.1, fun _ => ⟨hmem, ?_⟩⟩
    have := hprop.2
    simpa using this

/-- Witness for C6: from candidates `["a", "b"]` with history `["a"]` and
oracle `0`, the selector returns `"b"`, which is outside the history. -/
theorem c6_selector_witness :
    ∃ id, (pickRandomWithHistory ["a", "b"] ["a"] 0).1 = some id ∧
      id ∈ ["a", "b"] ∧
      ((["a", "b"].filter (fun c => !((["a"] : List String).contains c))) ≠ [] →
        id ∈ ["a", "b"].filter (fun c => !((["a"] : List String).contains c)) ∧
        id ∉ (["a"] : List String)) :=
  c6_selector ["a", "b"] ["a"] 0 (by decide)

/-- C7: the code has no point-count guard.  A present landmark list with a
wrong point count (here a single point) makes `processResults` dereference a
missing index — the embedded result `none` models the thrown TypeError — so
the frame is *not* treated as absent; an absent hand, by contrast, yields
the label `"NONE"`. -/
theorem c7_malformed_landmarks :
    processFrame (some [⟨0, 0, 0⟩]) = none ∧
    processFrame none = some "NONE" := by
  constructor <;> rfl

/-! ## C8 — pinch distance -/

/-- A 21-point landmark set whose thumb tip (index 4) and index tip
(index 8) coincide in x and y but differ in z by 1. -/
def c8List : List Point :=
  List.replicate 8 ⟨0, 0, 0⟩ ++ ⟨0, 0, 1⟩ :: List.replicate 12 ⟨0, 0, 0⟩

/-- C8 counterexample: on `c8List` the code's pinch distance is `0` (it uses
only x and y), yet the 3-D Euclidean distance between thumb tip and index
tip is `1` (squared values `0` versus `1`); consequently `isPinching` is
true even though the two tips are 1 apart in space — the claim's equality
with the 3-D Euclidean distance fails. -/
theorem c8_counterexample :
    c8List.length = 21 ∧
    c8List.get? 4 = some ⟨0, 0, 0⟩ ∧
    c8List.get? 8 = some ⟨0, 0, 1⟩ ∧
    distSq c8List 4 8 = some 0 ∧
    euclidDistSq3D ⟨0, 0, 0⟩ ⟨0, 0, 1⟩ = 1 ∧
    (featuresOfLandmarks c8List).map (fun f => f.isPinching) = some true ∧
    (0 : ℚ) < 1 := by
  refine ⟨by decide, rfl, rfl, ?_, ?_, ?_, by norm_num⟩
  · have h : distSq c8List 4 8 = some (((0 : ℚ) - 0) ^ 2 + ((0 : ℚ) - 0) ^ 2) := rfl
    rw [h]
    norm_num
  · norm_num [euclidDistSq3D]
  · have d1 : distSq c8List 4 17 = some (((0 : ℚ) - 0) ^ 2 + ((0 : ℚ) - 0) ^ 2) := rfl
    have d2 : distSq c8List 8 0 = some (((0 : ℚ) - 0) ^ 2 + ((0 : ℚ) - 0) ^ 2) := rfl
    have d3 : distSq c8List 5 0 = some (((0 : ℚ) - 0) ^ 2 + ((0 : ℚ) - 0) ^ 2) := rfl
    have d4 : distSq c8List 12 0 = some (((0 : ℚ) - 0) ^ 2 + ((0 : ℚ) - 0) ^ 2) := rfl
    have d5 : distSq c8List 9 0 = some (((0 : ℚ) - 0) ^ 2 + ((0 : ℚ) - 0) ^ 2) := rfl
    have d6 : distSq c8List 16 0 = some (((0 : ℚ) - 0) ^ 2 + ((0 : ℚ) - 0) ^ 2) := rfl
    have d7 : distSq c8List 13 0 = some (((0 : ℚ) - 0) ^ 2 + ((0 : ℚ) - 0) ^ 2) := rfl
    have d8 : distSq c8List 20 0 = some (((0 : ℚ) - 0) ^ 2 + ((0 : ℚ) - 0) ^ 2) := rfl
    have d9 : distSq c8List 17 0 = some (((0 : ℚ) - 0) ^ 2 + ((0 : ℚ) - 0) ^ 2) := rfl
    have d10 : distSq c8List 4 8 = some (((0 : ℚ) - 0) ^ 2 + ((0 : ℚ) - 0) ^ 2) := rfl
    have hf : featuresOfLandmarks c8List =
        some ⟨false, false, false, false, false, true⟩ := by
      simp only [featuresOfLandmarks, d1, d2, d3, d4, d5, d6, d7, d8, d9, d10,
        Option.bind_eq_bind, Option.some_bind]
      norm_num [THUMB_EXTENDED_DISTANCE_THRESHOLD_SQ, FINGER_EXTENSION_MULTIPLIER_SQ,
        PINCH_DISTANCE_THRESHOLD_SQ]
    rw [hf]
    rfl

/-- C8 amended: for every 21-point landmark set, extraction succeeds, the
computed (squared) pinch distance is the *planar* squared Euclidean distance
between thumb tip and index tip — z is ignored — and `isPinching` holds iff
that planar squared distance is below the squared threshold `0.08²`. -/
theorem c8_amended (l : List Point) (hl : l.length = 21) :
    ∃ (p4 p8 : Point) (f : Features),
      l.get? 4 = some p4 ∧ l.get? 8 = some p8 ∧
      featuresOfLandmarks l = some f ∧
      distSq l 4 8 = some ((p4.x - p8.x) ^ 2 + (p4.y - p8.y) ^ 2) ∧
      (f.isPinching = true ↔
        (p4.x - p8.x) ^ 2 + (p4.y - p8.y) ^ 2 < PINCH_DISTANCE_THRESHOLD_SQ) := by
  have g : ∀ i, i < 21 → ∃ p, l.get? i = some p := by
    intro i hi
    exact ⟨l.get ⟨i, by omega⟩, List.get?_eq_get (by omega)⟩
  obtain ⟨p0, h0⟩ := g 0 (by norm_num)
  obtain ⟨p4, h4⟩ := g 4 (by norm_num)
  obtain ⟨p5, h5⟩ := g 5 (by norm_num)
  obtain ⟨p8, h8⟩ := g 8 (by norm_num)
  obtain ⟨p9, h9⟩ := g 9 (by norm_num)
  obtain ⟨p12, h12⟩ := g 12 (by norm_num)
  obtain ⟨p13, h13⟩ := g 13 (by norm_num)
  obtain ⟨p16, h16⟩ := g 16 (by norm_num)
  obtain ⟨p17, h17⟩ := g 17 (by norm_num)
  obtain ⟨p20, h20⟩ := g 20 (by norm_num)
  have d1 : distSq l 4 17 = some ((p4.x - p17.x) ^ 2 + (p4.y - p17.y) ^ 2) := by
    unfold distSq
    rw [h4, h17]
    try rfl
  have d2 : distSq l 8 0 = some ((p8.x - p0.x) ^ 2 + (p8.y - p0.y) ^ 2) := by
    unfold distSq
    rw [h8, h0]
    try rfl
  have d3 : distSq l 5 0 = some ((p5.x - p0.x) ^ 2 + (p5.y - p0.y) ^ 2) := by
    unfold distSq
    rw [h5, h0]
    try rfl
  have d4 : distSq l 12 0 = some ((p12.x - p0.x) ^ 2 + (p12.y - p0.y) ^ 2) := by
    unfold distSq
    rw [h12, h0]
    try rfl
  have d5 : distSq l 9 0 = some ((p9.x - p0.x) ^ 2 + (p9.y - p0.y) ^ 2) := by
    unfold distSq
    rw [h9, h0]
    try rfl
  have d6 : distSq l 16 0 = some ((p16.x - p0.x) ^ 2 + (p16.y - p0.y) ^ 2) := by
    unfold distSq
    rw [h16, h0]
    try rfl
  have d7 : distSq l 13 0 = some ((p13.x - p0.x) ^ 2 + (p13.y - p0.y) ^ 2) := by
    unfold distSq
    rw [h13, h0]
    try rfl
  have d8 : distSq l 20 0 = some ((p20.x - p0.x) ^ 2 + (p20.y - p0.y) ^ 2) := by
    unfold distSq
    rw [h20, h0]
    try rfl
  have d9 : distSq l 17 0 = some ((p17.x - p0.x) ^ 2 + (p17.y - p0.y) ^ 2) := by
    unfold distSq
    rw [h17, h0]
    try rfl
  have d10 : distSq l 4 8 = some ((p4.x - p8.x) ^ 2 + (p4.y - p8.y) ^ 2) := by
    unfold distSq
    rw [h4, h8]
    try rfl
  have hf : featuresOfLandmarks l = some
      { thumbExtended := decide (THUMB_EXTENDED_DISTANCE_THRESHOLD_SQ <
          (p4.x - p17.x) ^ 2 + (p4.y - p17.y) ^ 2)
        indexExtended := decide (((p5.x - p0.x) ^ 2 + (p5.y - p0.y) ^ 2) *
          FINGER_EXTENSION_MULTIPLIER_SQ < (p8.x - p0.x) ^ 2 + (p8.y - p0.y) ^ 2)
        middleExtended := decide (((p9.x - p0.x) ^ 2 + (p9.y - p0.y) ^ 2) *
          FINGER_EXTENSION_MULTIPLIER_SQ < (p12.x - p0.x) ^ 2 + (p12.y - p0.y) ^ 2)
        ringExtended := decide (((p13.x - p0.x) ^ 2 + (p13.y - p0.y) ^ 2) *
          FINGER_EXTENSION_MULTIPLIER_SQ < (p16.x - p0.x) ^ 2 + (p16.y - p0.y) ^ 2)
        pinkyExtended := decide (((p17.x - p0.x) ^ 2 + (p17.y - p0.y) ^ 2) *
          FINGER_EXTENSION_MULTIPLIER_SQ < (p20.x - p0.x) ^ 2 + (p20.y - p0.y) ^ 2)
        isPinching := decide ((p4.x - p8.x) ^ 2 + (p4.y - p8.y) ^ 2 <
          PINCH_DISTANCE_THRESHOLD_SQ) } := by
    simp only [featuresOfLandmarks, d1, d2, d3, d4, d5, d6, d7, d8, d9, d10,
      Option.bind_eq_bind, Option.some_bind]
    rfl
  refine ⟨p4, p8, _, h4, h8, hf, d10, ?_⟩
  simp only [decide_eq_true_eq]

/-- Witness for C8 (amended) at the all-zero 21-point landmark set. -/
theorem c8_amended_witness :
    (List.replicate 21 (⟨0, 0, 0⟩ : Point)).length = 21 ∧
    ∃ (p4 p8 : Point) (f : Features),
      (List.replicate 21 (⟨0, 0, 0⟩ : Point)).get? 4 = some p4 ∧
      (List.replicate 21 (⟨0, 0, 0⟩ : Point)).get? 8 = some p8 ∧
      featuresOfLandmarks (List.replicate 21 ⟨0, 0, 0⟩) = some f ∧
      distSq (List.replicate 21 ⟨0, 0, 0⟩) 4 8 =
        some ((p4.x - p8.x) ^ 2 + (p4.y - p8.y) ^ 2) ∧
      (f.isPinching = true ↔
        (p4.x - p8.x) ^ 2 + (p4.y - p8.y) ^ 2 < PINCH_DISTANCE_THRESHOLD_SQ) :=
  ⟨by simp, c8_amended (List.replicate 21 ⟨0, 0, 0⟩) (by simp)⟩

/-! ## C9/C10 — idempotence and manual overrides -/

theorem processRun_confirmed (n : Nat) (L : String) (s : AppState)
    (m : InteractionMode) :
    ∀ (k : Nat) (h : List String), ∃ h',
      processRun n ⟨h, L, s, m⟩ (List.replicate k L) =
        (⟨h', L, s, m⟩, List.replicate k false) := by
  intro k
  induction k with
  | zero => intro h; exact ⟨h, by simp [processRun]⟩
  | succ k ih =>
    intro h
    obtain ⟨h', hh'⟩ := ih (pushBuf n h L)
    refine ⟨h', ?_⟩
    rw [List.replicate_succ, processRun]
    have hstab : stabStep n ⟨h, L⟩ L = (⟨pushBuf n h L, L⟩, false) := by
      simp [stabStep]
    have hstep : processStep n ⟨h, L, s, m⟩ L = (⟨pushBuf n h L, L, s, m⟩, false) := by
      simp [processStep, hstab]
    simp only [hstep, hh']
    simp [List.replicate_succ]

/-- C9: idempotence.  When the confirmed label is already `L`, any further
run of raw `L` frames emits no gesture-change event and leaves the confirmed
label, formation state and interaction mode untouched; and re-entering
`PULLING_GIFT` (resp. `PULLING_FRAME`) while the active item is already a
gift (resp. frame) keeps the selected item and pushes nothing onto the
selection history. -/
theorem c9_idempotence :
    (∀ (n : Nat) (h : List String) (s : AppState) (m : InteractionMode)
        (L : String) (k : Nat), ∃ h',
      processRun n ⟨h, L, s, m⟩ (List.replicate k L) =
        (⟨h', L, s, m⟩, List.replicate k false)) ∧
    (∀ (items : List ItemD) (a : String) (hist : List String) (r : Nat)
        (it : ItemD), items.find? (fun i => i.id == a) = some it →
      it.type = ItemType.gift →
      selectionEffect .PULLING_GIFT items (some a) hist r = (some a, hist)) ∧
    (∀ (items : List ItemD) (a : String) (hist : List String) (r : Nat)
        (it : ItemD), items.find? (fun i => i.id == a) = some it →
      it.type = ItemType.frame →
      selectionEffect .PULLING_FRAME items (some a) hist r = (some a, hist)) := by
  refine ⟨?_, ?_, ?_⟩
  · intro n h s m L k
    exact processRun_confirmed n L s m k h
  · intro items a hist r it hfind htype
    simp [selectionEffect, activeHasType, hfind, htype]
  · intro items a hist r it hfind htype
    simp [selectionEffect, activeHasType, hfind, htype]

/-- Witness for C9: re-confirming `"FIST"` three times changes nothing, and
re-entering a pulling mode with a matching targeted item keeps it. -/
theorem c9_idempotence_witness :
    (∃ h', processRun 5 ⟨[], "FIST", AppState.TREE_SHAPE, InteractionMode.IDLE⟩
        (List.replicate 3 "FIST") =
      (⟨h', "FIST", AppState.TREE_SHAPE, InteractionMode.IDLE⟩,
        List.replicate 3 false)) ∧
    selectionEffect .PULLING_GIFT [⟨"gift-0", .gift⟩] (some "gift-0") [] 0 =
      (some "gift-0", []) ∧
    selectionEffect .PULLING_FRAME [⟨"frame-0", .frame⟩] (some "frame-0") [] 0 =
      (some "frame-0", []) := by
  refine ⟨?_, ?_, ?_⟩
  · exact c9_idempotence.1 5 [] AppState.TREE_SHAPE InteractionMode.IDLE "FIST" 3
  · exact c9_idempotence.2.1 [⟨"gift-0", .gift⟩] "gift-0" [] 0 ⟨"gift-0", .gift⟩
      (by decide) rfl
  · exact c9_idempotence.2.2 [⟨"frame-0", .frame⟩] "frame-0" [] 0 ⟨"frame-0", .frame⟩
      (by decide) rfl

/-- C10: a manual override applies only the formation/mode transition: the
stabilizer's rolling buffer and its confirmed label are untouched; and after
the override, any run of raw frames equal to the still-recorded confirmed
label fires no gesture-change event and leaves the formation state and mode
exactly where the override put them. -/
theorem c10_manual_override :
    (∀ (g : String) (st : CtrlState),
      (manualOverride g st).history = st.history ∧
      (manualOverride g st).stable = st.stable) ∧
    (∀ (g : String) (st : CtrlState) (n k : Nat), ∃ h',
      processRun n (manualOverride g st)
          (List.replicate k (manualOverride g st).stable) =
        (⟨h', st.stable, (manualOverride g st).appState,
          (manualOverride g st).mode⟩, List.replicate k false)) := by
  refine ⟨fun g st => ⟨rfl, rfl⟩, ?_⟩
  intro g st n k
  obtain ⟨h', hh⟩ := processRun_confirmed n st.stable (manualOverride g st).appState
    (manualOverride g st).mode k st.history
  exact ⟨h', hh⟩
